import Mathlib

/-!
Verification of the answer-derivation pipeline of the LLM quiz agent
(`main.py`): the heuristic solver `heuristic_solve` and the file-content
router `attempt_process_file_bytes`, together with the tabular extraction
policy for CSV / Excel / PDF content.

Shallow embedding conventions:
* Python strings are Lean `String`s; `str.lower`, `str.strip`, slicing and
  substring tests are re-implemented over `List Char` so that all
  definitions reduce in the kernel.
* Python floats are modelled as exact rationals (`ℚ`).  `float()` parsing
  covers the sign / digits / decimal-point forms; exotic forms
  (exponents, `inf`, `nan`, underscores) are out of scope because the
  inputs reaching the parser in this program cannot contain letters or
  underscores.
* Exceptions are modelled with `Option` / `Except`: a caught exception is
  `none` / `.error ()` at the place the source catches it.
* The external libraries (libmagic sniffing, pdfplumber, pandas readers,
  pytesseract) are collaborator functions bundled in a `Libs` record; the
  pandas *dataframe manipulations* performed by the source (column
  selection, `pd.to_numeric(errors="coerce")`, `sum(skipna=True)`,
  `select_dtypes('number')`, `float(...)`) are translated concretely.
* The temp-file staging done by `attempt_process_file_bytes`
  (NamedTemporaryFile / unlink) is modelled with an explicit `World`
  (a transient file system) threaded through the call.
-/

namespace Quiz

/-! ## Characters and strings (Python `lower`, `strip`, slicing) -/

/-- Python `str.lower()` (ASCII-faithful). -/
def pyLower (s : String) : String := ⟨s.data.map Char.toLower⟩

/-- Python `str.strip()`: drop leading and trailing whitespace. -/
def pyStrip (s : String) : String :=
  ⟨((s.data.dropWhile Char.isWhitespace).reverse.dropWhile Char.isWhitespace).reverse⟩

/-- Python `s[:n]` (slicing by characters). -/
def pyTake (s : String) (n : Nat) : String := ⟨s.data.take n⟩

/-- Boolean list-prefix test (over characters). -/
def hasPre : List Char → List Char → Bool
  | [], _ => true
  | _ :: _, [] => false
  | a :: as, b :: bs => a == b && hasPre as bs

/-- Boolean substring-occurrence test over characters. -/
def hasSub : List Char → List Char → Bool
  | n, [] => n.isEmpty
  | n, c :: t => hasPre n (c :: t) || hasSub n t

/-- Python `sub in hay` on strings. -/
def containsStr (hay sub : String) : Bool := hasSub sub.data hay.data

/-- Python `s.endswith(suf)`. -/
def strEndsWith (s suf : String) : Bool := hasPre suf.data.reverse s.data.reverse

/-- Left-fold concatenation of a list of strings (pandas object-`Series.sum`). -/
def joinCells (l : List String) : String := l.foldl (fun a s => a ++ s) ""

/-! ## Numeric parsing: Python `float(...)` on sign/digits/dot literals -/

/-- Value of a digit run. -/
def digitsVal (l : List Char) : Nat := l.foldl (fun a c => a * 10 + (c.toNat - 48)) 0

/-- Parse an unsigned numeric literal `digits [. digits]` (either part may be
empty but not both), as Python's tokenizer / `float()` accepts. -/
def parseNumCore (l : List Char) : Option ℚ :=
  let intPart := l.takeWhile (fun c => c ≠ '.')
  let rest := l.drop intPart.length
  match rest with
  | [] =>
    if intPart ≠ [] ∧ intPart.all Char.isDigit then some ((digitsVal intPart : ℤ) : ℚ)
    else none
  | '.' :: frac =>
    if intPart.all Char.isDigit ∧ frac.all Char.isDigit ∧ (intPart ≠ [] ∨ frac ≠ []) then
      some (((digitsVal intPart : ℤ) : ℚ) + ((digitsVal frac : ℤ) : ℚ) / ((10 : ℚ) ^ frac.length))
    else none
  | _ => none

/-- Python `float(s)` on the literal forms reachable in this program:
optional surrounding whitespace, optional sign, digits with at most one
decimal point.  `none` models a raised `ValueError`. -/
def parseNum (s : String) : Option ℚ :=
  match (pyStrip s).data with
  | '-' :: r => (parseNumCore r).map (fun q => -q)
  | '+' :: r => parseNumCore r
  | l => parseNumCore l

/-! ## Arithmetic evaluation: `float(eval(expr))` on the restricted charset

The expression captured by the arithmetic rule can contain only digits,
whitespace, `.`, `+`, `-`, `*`, `/`.  Over that charset, Python `eval`
admits numeric literals, unary `+`/`-`, binary `+ - * / // **`, with the
usual precedence (`**` tightest and right-associated, then unary sign,
then `* / //`, then `+ -`).  Failures (syntax errors, division by zero,
overflow) are modelled as `none`; values are exact rationals.  A `**`
with a non-integer exponent generally yields an irrational float and is
modelled as `none` (unreachable by the claims considered here). -/

/-- Tokens of the restricted arithmetic grammar. -/
inductive Tok where
  | num (q : ℚ)
  | add | sub | mul | div | fdiv | pow
  deriving DecidableEq

/-- Tokenizer (fuelled).  Number tokens are maximal runs of digits and
dots; a run that is not a valid literal is a syntax error (`none`), as in
Python, where e.g. `1.2.3` also fails to parse. -/
def tokenizeF : Nat → List Char → Option (List Tok)
  | 0, _ => none
  | _ + 1, [] => some []
  | f + 1, c :: rest =>
    if c.isWhitespace then tokenizeF f rest
    else if c.isDigit || c = '.' then
      let run := (c :: rest).takeWhile (fun d => d.isDigit || d = '.')
      match parseNumCore run with
      | some q => (tokenizeF f ((c :: rest).drop run.length)).map (Tok.num q :: ·)
      | none => none
    else if c = '+' then (tokenizeF f rest).map (Tok.add :: ·)
    else if c = '-' then (tokenizeF f rest).map (Tok.sub :: ·)
    else if c = '*' then
      match rest with
      | '*' :: r2 => (tokenizeF f r2).map (Tok.pow :: ·)
      | _ => (tokenizeF f rest).map (Tok.mul :: ·)
    else if c = '/' then
      match rest with
      | '/' :: r2 => (tokenizeF f r2).map (Tok.fdiv :: ·)
      | _ => (tokenizeF f rest).map (Tok.div :: ·)
    else none

/-- Python `a ** e` on rationals: defined when the exponent is an integer
(and not `0 ** negative`, which raises `ZeroDivisionError`). -/
def qpow (a e : ℚ) : Option ℚ :=
  if e.den = 1 then
    if a = 0 ∧ e.num < 0 then none else some (a ^ e.num)
  else none

mutual

/-- Additive level: `term (('+'|'-') term)*`. -/
def pAdd : Nat → List Tok → Option (ℚ × List Tok)
  | 0, _ => none
  | f + 1, ts =>
    match pMul f ts with
    | some (a, rest) => pAddLoop f a rest
    | none => none

def pAddLoop : Nat → ℚ → List Tok → Option (ℚ × List Tok)
  | 0, _, _ => none
  | f + 1, a, Tok.add :: ts =>
    match pMul f ts with
    | some (b, r) => pAddLoop f (a + b) r
    | none => none
  | f + 1, a, Tok.sub :: ts =>
    match pMul f ts with
    | some (b, r) => pAddLoop f (a - b) r
    | none => none
  | _ + 1, a, ts => some (a, ts)

/-- Multiplicative level: `unary (('*'|'/'|'//') unary)*`.  Division by
zero raises (`none`); `//` is float floor division. -/
def pMul : Nat → List Tok → Option (ℚ × List Tok)
  | 0, _ => none
  | f + 1, ts =>
    match pUnary f ts with
    | some (a, rest) => pMulLoop f a rest
    | none => none

def pMulLoop : Nat → ℚ → List Tok → Option (ℚ × List Tok)
  | 0, _, _ => none
  | f + 1, a, Tok.mul :: ts =>
    match pUnary f ts with
    | some (b, r) => pMulLoop f (a * b) r
    | none => none
  | f + 1, a, Tok.div :: ts =>
    match pUnary f ts with
    | some (b, r) => if b = 0 then none else pMulLoop f (a / b) r
    | none => none
  | f + 1, a, Tok.fdiv :: ts =>
    match pUnary f ts with
    | some (b, r) => if b = 0 then none else pMulLoop f ((Rat.floor (a / b) : ℤ) : ℚ) r
    | none => none
  | _ + 1, a, ts => some (a, ts)

/-- Unary sign level: `('+'|'-')* power`. -/
def pUnary : Nat → List Tok → Option (ℚ × List Tok)
  | 0, _ => none
  | f + 1, Tok.sub :: ts => (pUnary f ts).map (fun p => (-p.1, p.2))
  | f + 1, Tok.add :: ts => pUnary f ts
  | f + 1, ts => pPow f ts

/-- Power level: `number ('**' unary)?`, right-associated as in Python. -/
def pPow : Nat → List Tok → Option (ℚ × List Tok)
  | 0, _ => none
  | f + 1, Tok.num q :: Tok.pow :: ts =>
    match pUnary f ts with
    | some (e, r) =>
      match qpow q e with
      | some v => some (v, r)
      | none => none
    | none => none
  | _ + 1, Tok.num q :: ts => some (q, ts)
  | _ + 1, _ => none

end

/-- `float(eval(expr))` for the restricted charset: tokenize, parse the
whole token list as one expression, fail (`none`) on any leftover input
or runtime error. -/
def pyEval (s : String) : Option ℚ :=
  match tokenizeF (s.data.length + 1) s.data with
  | some ts =>
    match pAdd (4 * ts.length + 8) ts with
    | some (v, []) => some v
    | _ => none
  | none => none

/-! ## The arithmetic-rule regex

`re.search(r"what is ([0-9\.\-\+\*\/\s]+)\?", low)`: scan left to right
for the literal `"what is "`, then a maximal nonempty run of permitted
characters which must be followed by `'?'` (the `?` cannot occur inside
the run, so greedy backtracking never shortens it). -/

/-- The character class `[0-9\.\-\+\*\/\s]` of the arithmetic rule. -/
def allowedArithChar (c : Char) : Bool :=
  c.isDigit || c.isWhitespace || c = '.' || c = '+' || c = '-' || c = '*' || c = '/'

/-- Try the pattern anchored at position 0 of `l` (the anchor `"what is "`
was already checked): capture a maximal nonempty permitted run after the
8-character anchor, provided the next character is `'?'`. -/
def arithHere (l : List Char) : Option String :=
  if !((l.drop 8).takeWhile allowedArithChar).isEmpty &&
      (((l.drop 8).drop ((l.drop 8).takeWhile allowedArithChar).length).head? == some '?') then
    some (String.mk ((l.drop 8).takeWhile allowedArithChar))
  else none

/-- Leftmost match of the arithmetic pattern; returns the captured group. -/
def findArithAux : List Char → Option String
  | [] => none
  | c :: rest =>
    match (if hasPre "what is ".data (c :: rest) then arithHere (c :: rest) else none) with
    | some e => some e
    | none => findArithAux rest

/-- `re.search` of the arithmetic pattern over a string. -/
def findArith (s : String) : Option String := findArithAux s.data

/-! ## Data model -/

/-- Raw file content (a Python `bytes` value). -/
abbrev ByteSeq := List Nat

/-- The polymorphic answer payload produced by the pipeline: a number, a
boolean, or a one-field structured object (`{ocr_text: ...}` or
`{problem_text: ...}`). -/
inductive AnswerValue where
  | num (q : ℚ)
  | bool (b : Bool)
  | obj (key : String) (text : String)
  deriving DecidableEq

/-- A table row extracted by pdfplumber. -/
abbrev Row := List String

/-- A table: list of rows, the first row being the header. -/
abbrev Table := List Row

/-- A PDF page as seen by `extract_tables`. -/
abbrev PdfPage := List Table

/-- A pandas dataframe produced by `read_csv` / `read_excel`: header names
paired with the raw cell strings of each column. -/
structure Df where
  cols : List (String × List String)

/-- The external parsing collaborators (libmagic, pdfplumber, pandas
readers, pytesseract).  `.error ()` models a raised exception. -/
structure Libs where
  sniff : ByteSeq → String
  pdfOpen : ByteSeq → Except Unit (List PdfPage)
  readCsv : ByteSeq → Except Unit Df
  readExcel : ByteSeq → Except Unit Df
  ocr : ByteSeq → Except Unit String

/-- Process-wide capability flags (`ENABLE_OCR`, `OCR_AVAILABLE`). -/
structure Config where
  enableOcr : Bool
  ocrAvailable : Bool

/-- The browser page as consulted by rule 1: `find_download_link` and
`download_file_bytes` of the excluded navigation layer. -/
structure Page where
  findDownloadLink : Option String
  fetch : String → Option (ByteSeq × String)

/-- The transient temp-file store: path names mapped to contents. -/
abbrev World := List (String × ByteSeq)

/-- `os.path.splitext(filename)[1]`: the final extension with its dot. -/
def extSuffix (filename : String) : String :=
  let ext := filename.data.reverse.takeWhile (fun c => c ≠ '.')
  if ext.length < filename.data.length ∧ ext.length + 1 < filename.data.length then
    String.mk ('.' :: ext.reverse)
  else ""

/-- Fresh temp-file name (NamedTemporaryFile with a suffix). -/
def freshName (w : World) (suffix : String) : String :=
  "tmp" ++ toString w.length ++ suffix

/-- Write a file into the transient store. -/
def writeFile (w : World) (p : String) (b : ByteSeq) : World := (p, b) :: w

/-- Read a file back from the transient store. -/
def readTmp (w : World) (p : String) : Option ByteSeq :=
  (w.find? (fun e => e.1 == p)).map (fun e => e.2)

/-- `os.unlink`. -/
def unlink (w : World) (p : String) : World := w.filter (fun e => e.1 != p)

/-! ## Tabular extraction policy -/

/-- A dataframe column is numeric-typed iff every cell is blank (NaN) or
parses as a number — pandas `read_csv` type inference. -/
def numericCol (cells : List String) : Bool :=
  cells.all (fun s => s == "" || (parseNum s).isSome)

/-- `Series.sum(skipna=True)` of a numeric column: blanks are NaN and are
skipped; an all-NaN column sums to 0. -/
def sumNumeric (cells : List String) : ℚ :=
  (cells.filterMap parseNum).sum

/-- `float(df[col].sum())` on a `read_csv` column.  A numeric-typed column
sums numerically.  An object-typed column (some cell is non-numeric text)
concatenates its string cells — raising `TypeError` (`none`) if a NaN
(blank cell) is mixed in — and then `float` must parse the concatenation. -/
def floatSumSeries (cells : List String) : Option ℚ :=
  if numericCol cells then some (sumNumeric cells)
  else if cells.any (fun s => s == "") then none
  else parseNum (joinCells cells)

/-- The CSV/Excel column-selection policy of `attempt_process_file_bytes`
(lines 225-230 and 233-238): sum the first case-insensitive `value`
column via `float(df[col].sum())` — an exception escapes (`.error`) —
else the first numeric-typed column, else no result. -/
def tabularAnswer (df : Df) : Except Unit (Option AnswerValue) :=
  match df.cols.findIdx? (fun c => pyLower c.1 == "value") with
  | some i =>
    match floatSumSeries (df.cols.getD i ("", [])).2 with
    | some s => .ok (some (.num s))
    | none => .error ()
  | none =>
    match df.cols.find? (fun c => numericCol c.2) with
    | some c => .ok (some (.num (sumNumeric c.2)))
    | none => .ok none

/-- The PDF branch body (lines 210-220): only documents with at least two
pages are inspected, at the fixed page index 1; the first table there is
read with its first row as header; a case-insensitive `value` column is
coerced cell-wise (`pd.to_numeric(errors="coerce")`) and summed with
NaNs skipped.  Any malformed shape is a caught exception (`none`), and a
missing `value` column falls through with no result — there is no
first-numeric-column fallback here. -/
def pdfStep (pages : List PdfPage) : Option AnswerValue :=
  if pages.length ≥ 2 then
    match pages.getD 1 [] with
    | [] => none
    | t :: _ =>
      match t with
      | [] => none
      | hdr :: rows =>
        if rows.all (fun r => r.length == hdr.length) then
          match hdr.findIdx? (fun h => pyLower h == "value") with
          | some i => some (.num ((rows.filterMap (fun r => parseNum (r.getD i ""))).sum))
          | none => none
        else none
  else none

/-! ## File content router (`attempt_process_file_bytes`) -/

/-- OCR routing condition (line 202). -/
def ocrCond (cfg : Config) (lower mime : String) : Bool :=
  cfg.enableOcr && cfg.ocrAvailable &&
    (strEndsWith lower ".png" || strEndsWith lower ".jpg" || containsStr mime "image")

/-- PDF routing condition (line 208). -/
def pdfCond (mime lower : String) : Bool :=
  containsStr mime "pdf" || strEndsWith lower ".pdf"

/-- CSV routing condition (line 223). -/
def csvCond (mime lower : String) : Bool :=
  containsStr mime "csv" || strEndsWith lower ".csv"

/-- Excel routing condition (line 231). -/
def excelCond (mime lower : String) : Bool :=
  containsStr mime "excel" || strEndsWith lower ".xlsx" || strEndsWith lower ".xls"

/-- The body of `attempt_process_file_bytes` after staging: sniff, then
try OCR, PDF, CSV, Excel in order.  OCR and PDF failures are caught
locally and fall through; a `read_csv` / `read_excel` / `float` failure
escapes to the outer handler (`.error ()`). -/
def dispatch (L : Libs) (cfg : Config) (bts : ByteSeq) (filename : String) :
    Except Unit (Option AnswerValue) :=
  let mime := L.sniff bts
  let lower := pyLower filename
  let ocrRes : Option AnswerValue :=
    if ocrCond cfg lower mime then
      match L.ocr bts with
      | .ok text => some (.obj "ocr_text" (pyTake (pyStrip text) 2000))
      | .error _ => none
    else none
  match ocrRes with
  | some v => .ok (some v)
  | none =>
    let pdfRes : Option AnswerValue :=
      if pdfCond mime lower then
        match L.pdfOpen bts with
        | .ok pages => pdfStep pages
        | .error _ => none
      else none
    match pdfRes with
    | some v => .ok (some v)
    | none =>
      let excelStep : Except Unit (Option AnswerValue) :=
        if excelCond mime lower then
          match L.readExcel bts with
          | .ok df => tabularAnswer df
          | .error _ => .error ()
        else .ok none
      if csvCond mime lower then
        match L.readCsv bts with
        | .ok df =>
          match tabularAnswer df with
          | .ok (some v) => .ok (some v)
          | .ok none => excelStep
          | .error e => .error e
        | .error _ => .error ()
      else excelStep

/-- `attempt_process_file_bytes`, with the temp-file staging made
explicit: write the bytes to a fresh temp path, dispatch on the staged
copy, and unlink on every exit path (the `finally`).  An exception
anywhere inside the `try` yields `None`. -/
def attemptProcessSt (L : Libs) (cfg : Config) (w : World) (bts : ByteSeq)
    (filename : String) : World × Option AnswerValue :=
  let path := freshName w (extSuffix filename)
  let w1 := writeFile w path bts
  let res :=
    match readTmp w1 path with
    | some staged =>
      match dispatch L cfg staged filename with
      | .ok v => v
      | .error _ => none
    | none => none
  (unlink w1 path, res)

/-- The answer component of `attempt_process_file_bytes`, starting from an
empty temp store. -/
def attemptProcess (L : Libs) (cfg : Config) (bts : ByteSeq) (filename : String) :
    Option AnswerValue :=
  (attemptProcessSt L cfg [] bts filename).2

/-! ## Heuristic solver (`heuristic_solve`) -/

/-- `filename or "file"`: Python falsiness treats `None` and `""` alike. -/
def fnameOf : Option String → String
  | some f => if f = "" then "file" else f
  | none => "file"

/-- Rule 1 trigger (line 252): the lowered text contains all of
`"sum of"`, `"value"`, `"page 2"`. -/
def rule1Cond (low : String) : Bool :=
  containsStr low "sum of" && containsStr low "value" && containsStr low "page 2"

/-- Rule 1 (lines 252-263): on trigger, process the supplied blob if its
bytes are truthy; if that yields nothing, rediscover a download link on
the page, fetch it, and process that; otherwise no result. -/
def rule1Of (L : Libs) (cfg : Config) (low fname : String)
    (file_bytes : Option ByteSeq) (page : Page) : Option AnswerValue :=
  if rule1Cond low then
    match
      (match file_bytes with
       | some fb => if fb.isEmpty then none else attemptProcess L cfg fb fname
       | none => none) with
    | some v => some v
    | none =>
      match page.findDownloadLink with
      | some link =>
        match page.fetch link with
        | some (bts, fn2) => if bts.isEmpty then none else attemptProcess L cfg bts fn2
        | none => none
      | none => none
  else none

/-- Rule 2 (lines 264-271): search the arithmetic pattern, re-check the
character set, evaluate; any failure is swallowed (`none`). -/
def rule2Of (low : String) : Option ℚ :=
  match findArith low with
  | some expr =>
    if !expr.data.isEmpty && expr.data.all allowedArithChar then pyEval expr else none
  | none => none

/-- Rule 3 trigger (line 272). -/
def rule3Cond (low : String) : Bool :=
  containsStr low "true or false" || containsStr low "is the following true"

/-- Rule 3 result (lines 273-275): `True` iff the lowered text contains
`"true"` or `"yes"`. -/
def rule3Val (low : String) : Bool :=
  containsStr low "true" || containsStr low "yes"

/-- Rule 4 (lines 276-279): with truthy file bytes, route through the
file processor. -/
def rule4Of (L : Libs) (cfg : Config) (fname : String)
    (file_bytes : Option ByteSeq) : Option AnswerValue :=
  match file_bytes with
  | some fb => if fb.isEmpty then none else attemptProcess L cfg fb fname
  | none => none

/-- `heuristic_solve` (lines 249-280): the ordered first-match-wins chain,
ending in the truncated-problem-text fallback. -/
def heuristic_solve (L : Libs) (cfg : Config) (problem_text : String)
    (file_bytes : Option ByteSeq) (filename : Option String) (page : Page) :
    AnswerValue :=
  let low := pyLower (pyStrip problem_text)
  let fname := fnameOf filename
  match rule1Of L cfg low fname file_bytes page with
  | some v => v
  | none =>
    match rule2Of low with
    | some q => .num q
    | none =>
      if rule3Cond low then .bool (rule3Val low)
      else
        match rule4Of L cfg fname file_bytes with
        | some v => v
        | none => .obj "problem_text" (pyTake problem_text 200)

/-- The rule chain as one optional value (used to state the solver's
worst-case-fallback contract). -/
def rulesChain (L : Libs) (cfg : Config) (problem_text : String)
    (file_bytes : Option ByteSeq) (filename : Option String) (page : Page) :
    Option AnswerValue :=
  let low := pyLower (pyStrip problem_text)
  let fname := fnameOf filename
  (rule1Of L cfg low fname file_bytes page).orElse fun _ =>
    ((rule2Of low).map .num).orElse fun _ =>
      (if rule3Cond low then some (.bool (rule3Val low)) else none).orElse fun _ =>
        rule4Of L cfg fname file_bytes

/-! ## Concrete collaborator instances (used to evaluate the pipeline) -/

/-- Collaborators that sniff nothing and fail every parse. -/
def L0 : Libs where
  sniff _ := ""
  pdfOpen _ := .error ()
  readCsv _ := .error ()
  readExcel _ := .error ()
  ocr _ := .error ()

/-- OCR disabled, as when `ENABLE_OCR` is unset. -/
def cfg0 : Config where
  enableOcr := false
  ocrAvailable := false

/-- A page with no download link. -/
def page0 : Page where
  findDownloadLink := none
  fetch _ := none

/-- A page carrying a CSV download. -/
def pageB : Page where
  findDownloadLink := some "http://x/file.csv"
  fetch _ := some ([1, 2, 3], "file.csv")

/-! ## Helper lemmas -/

theorem hasPre_trans : ∀ {a b c : List Char}, hasPre a b = true → hasPre b c = true →
    hasPre a c = true := by
  intro a
  induction a with
  | nil => intro b c _ _; rfl
  | cons x as ih =>
    intro b c hab hbc
    cases b with
    | nil => simp [hasPre] at hab
    | cons y bs =>
      cases c with
      | nil => simp [hasPre] at hbc
      | cons z cs =>
        simp only [hasPre, Bool.and_eq_true, beq_iff_eq] at hab hbc ⊢
        exact ⟨hab.1.trans hbc.1, ih hab.2 hbc.2⟩

theorem hasSub_of_hasPre : ∀ {a c : List Char}, hasPre a c = true → hasSub a c = true := by
  intro a c h
  cases c with
  | nil =>
    cases a with
    | nil => rfl
    | cons x as => simp [hasPre] at h
  | cons d t => simp only [hasSub, Bool.or_eq_true]; exact Or.inl h

theorem hasSub_pre_trans : ∀ {b a c : List Char}, hasSub a b = true → hasPre b c = true →
    hasSub a c = true := by
  intro b
  induction b with
  | nil =>
    intro a c hab _
    simp only [hasSub, List.isEmpty_iff] at hab
    subst hab
    cases c with
    | nil => rfl
    | cons d t => simp only [hasSub, Bool.or_eq_true]; exact Or.inl rfl
  | cons y bs ih =>
    intro a c hab hbc
    cases c with
    | nil => simp [hasPre] at hbc
    | cons z cs =>
      simp only [hasPre, Bool.and_eq_true, beq_iff_eq] at hbc
      simp only [hasSub, Bool.or_eq_true] at hab ⊢
      cases hab with
      | inl h =>
        refine Or.inl (hasPre_trans h ?_)
        simp only [hasPre, Bool.and_eq_true, beq_iff_eq]
        exact hbc
      | inr h => exact Or.inr (ih h hbc.2)

theorem hasSub_trans : ∀ {c a b : List Char}, hasSub a b = true → hasSub b c = true →
    hasSub a c = true := by
  intro c
  induction c with
  | nil =>
    intro a b hab hbc
    simp only [hasSub, List.isEmpty_iff] at hbc
    subst hbc
    simp only [hasSub, List.isEmpty_iff] at hab
    subst hab
    rfl
  | cons d t ih =>
    intro a b hab hbc
    simp only [hasSub, Bool.or_eq_true] at hbc ⊢
    cases hbc with
    | inl h =>
      have hc := hasSub_pre_trans hab h
      simpa only [hasSub, Bool.or_eq_true] using hc
    | inr h => exact Or.inr (ih hab h)

theorem takeWhile_all (p : Char → Bool) : ∀ l : List Char, (l.takeWhile p).all p = true := by
  intro l
  induction l with
  | nil => rfl
  | cons c t ih =>
    by_cases hc : p c
    · simp [List.takeWhile_cons, hc, ih]
    · simp [List.takeWhile_cons, hc]

theorem arithHere_chars {l : List Char} {e : String} (h : arithHere l = some e) :
    e.data ≠ [] ∧ e.data.all allowedArithChar = true := by
  unfold arithHere at h
  split at h
  case isTrue hc =>
    cases h
    refine ⟨?_, takeWhile_all _ _⟩
    have h1 := ((Bool.and_eq_true _ _).mp hc).1
    intro hnil
    rw [show (String.mk (((l.drop 8).takeWhile allowedArithChar)) : String).data =
          (l.drop 8).takeWhile allowedArithChar from rfl] at hnil
    rw [hnil] at h1
    simp at h1
  case isFalse => exact absurd h (by simp)

theorem findArithAux_chars : ∀ {l : List Char} {e : String}, findArithAux l = some e →
    e.data ≠ [] ∧ e.data.all allowedArithChar = true := by
  intro l
  induction l with
  | nil => intro e h; simp [findArithAux] at h
  | cons c rest ih =>
    intro e h
    unfold findArithAux at h
    split at h
    next v heq =>
      cases h
      by_cases hpre : hasPre "what is ".data (c :: rest) = true
      · rw [if_pos hpre] at heq
        exact arithHere_chars heq
      · rw [if_neg hpre] at heq
        exact absurd heq (by simp)
    next heq => exact ih h

theorem findArith_chars {s e : String} (h : findArith s = some e) :
    e.data ≠ [] ∧ e.data.all allowedArithChar = true :=
  findArithAux_chars h

theorem readTmp_write (w : World) (p : String) (b : ByteSeq) :
    readTmp (writeFile w p b) p = some b := by
  unfold readTmp writeFile
  rw [List.find?_cons_of_pos]
  · rfl
  · simp

/-- The answer component of the router is independent of the pre-existing
temp-file store. -/
theorem attemptProcessSt_snd (L : Libs) (cfg : Config) (w : World) (b : ByteSeq)
    (f : String) : (attemptProcessSt L cfg w b f).2 = attemptProcess L cfg b f := by
  unfold attemptProcess attemptProcessSt
  simp only [readTmp_write]

/-- The router returns the dispatch result, every exception converted to
no-result. -/
theorem attemptProcess_eq (L : Libs) (cfg : Config) (b : ByteSeq) (f : String) :
    attemptProcess L cfg b f =
      (match dispatch L cfg b f with | .ok v => v | .error _ => none) := by
  unfold attemptProcess attemptProcessSt
  simp only [readTmp_write]

/-- When only the PDF route is open, dispatch reduces to the PDF branch
(with pdfplumber failures caught locally). -/
theorem dispatch_to_pdf (L : Libs) (cfg : Config) (b : ByteSeq) (fn : String)
    (hocr : ocrCond cfg (pyLower fn) (L.sniff b) = false)
    (hpdf : pdfCond (L.sniff b) (pyLower fn) = true)
    (hcsv : csvCond (L.sniff b) (pyLower fn) = false)
    (hxl : excelCond (L.sniff b) (pyLower fn) = false) :
    dispatch L cfg b fn =
      .ok (match L.pdfOpen b with
           | .ok pages => pdfStep pages
           | .error _ => none) := by
  simp only [dispatch, hocr, hpdf, hcsv, hxl, Bool.false_eq_true, if_false, if_true]
  cases L.pdfOpen b with
  | ok pages =>
    show (match pdfStep pages with
          | some v => Except.ok (some v)
          | none => Except.ok none) = Except.ok (pdfStep pages)
    cases pdfStep pages <;> rfl
  | error e => rfl

/-- When only the CSV route is open, dispatch reduces to the CSV branch
(reader and summation failures escaping as exceptions). -/
theorem dispatch_to_csv (L : Libs) (cfg : Config) (b : ByteSeq) (fn : String)
    (hocr : ocrCond cfg (pyLower fn) (L.sniff b) = false)
    (hpdf : pdfCond (L.sniff b) (pyLower fn) = false)
    (hcsv : csvCond (L.sniff b) (pyLower fn) = true)
    (hxl : excelCond (L.sniff b) (pyLower fn) = false) :
    dispatch L cfg b fn =
      (match L.readCsv b with
       | .ok df => tabularAnswer df
       | .error _ => .error ()) := by
  simp only [dispatch, hocr, hpdf, hcsv, hxl, Bool.false_eq_true, if_false, if_true]
  cases L.readCsv b with
  | ok df =>
    show (match tabularAnswer df with
          | Except.ok (some v) => Except.ok (some v)
          | Except.ok none => Except.ok none
          | Except.error e => Except.error e) = tabularAnswer df
    cases tabularAnswer df with
    | ok v => cases v <;> rfl
    | error e => cases e; rfl
  | error e => rfl

/-! ## Concrete collaborator instances for the evidence theorems -/

/-- A PDF whose page index 1 holds one table with a `Value` column. -/
def L2v : Libs where
  sniff _ := "application/pdf"
  pdfOpen _ := .ok [[], [[["Value", "x"], ["3", "9"], ["4", "8"]]]]
  readCsv _ := .error ()
  readExcel _ := .error ()
  ocr _ := .error ()

/-- A PDF whose page index 1 holds one table with no `value` column but a
numeric `amount` column. -/
def L2n : Libs where
  sniff _ := "application/pdf"
  pdfOpen _ := .ok [[], [[["amount"], ["5"]]]]
  readCsv _ := .error ()
  readExcel _ := .error ()
  ocr _ := .error ()

/-- A single-page PDF (even carrying a `Value` table on its only page). -/
def Lp1 : Libs where
  sniff _ := "application/pdf"
  pdfOpen _ := .ok [[[["Value"], ["3"]]]]
  readCsv _ := .error ()
  readExcel _ := .error ()
  ocr _ := .error ()

/-- A CSV with header `value,other` and rows `[1,9]`, `[2,8]`. -/
def L3a : Libs where
  sniff _ := "text/csv"
  pdfOpen _ := .error ()
  readCsv _ := .ok ⟨[("value", ["1", "2"]), ("other", ["9", "8"])]⟩
  readExcel _ := .error ()
  ocr _ := .error ()

/-- A CSV whose `value` column holds a non-numeric cell. -/
def L3b : Libs where
  sniff _ := "text/csv"
  pdfOpen _ := .error ()
  readCsv _ := .ok ⟨[("value", ["1", "abc"])]⟩
  readExcel _ := .error ()
  ocr _ := .error ()

/-- A CSV blob whose read raises. -/
def Lerr : Libs where
  sniff _ := "text/csv"
  pdfOpen _ := .error ()
  readCsv _ := .error ()
  readExcel _ := .error ()
  ocr _ := .error ()

/-! ## Spec-side policy definitions (the claims' wording, for comparison) -/

/-- Modelled from the claim's wording (C5): the character set the claim
says rule 2 permits — digits, whitespace, and the four operators, with
no other characters. -/
def claimedArithChar (c : Char) : Bool :=
  c.isDigit || c.isWhitespace || c = '+' || c = '-' || c = '*' || c = '/'

/-- Modelled from the claim's wording (C2): the column policy the claim
asserts for PDF tables — sum a case-insensitive `value` column, else
fall back to the first numeric column, coercing non-numeric cells to
null. -/
def claimedPdfPolicy (hdr : Row) (rows : List Row) : Option ℚ :=
  match hdr.findIdx? (fun h => pyLower h == "value") with
  | some i => some ((rows.filterMap (fun r => parseNum (r.getD i ""))).sum)
  | none =>
    match (List.range hdr.length).find?
        (fun i => numericCol (rows.map (fun r => r.getD i ""))) with
    | some i => some ((rows.filterMap (fun r => parseNum (r.getD i ""))).sum)
    | none => none

/-! ## Claim C1: the boolean-phrasing rule -/

/-- C1, counterexample.  The claim states that a problem text containing
`"true or false, nope"` makes `solve` return boolean `false`.  It returns
boolean `true`: the trigger phrase `"true or false"` itself contains the
substring `"true"`, so the false branch of rule 3 is unreachable from
this trigger. -/
theorem C1_counterexample :
    heuristic_solve L0 cfg0 "true or false, nope" none none page0 = AnswerValue.bool true ∧
    heuristic_solve L0 cfg0 "true or false, nope" none none page0 ≠ AnswerValue.bool false := by
  decide

/-- C1 (amended): whenever rule 3 triggers (no earlier rule fired and the
lowered text contains `"true or false"` or `"is the following true"`),
`solve` returns boolean `true` — both trigger phrases contain the
substring `"true"`, so the `false` outcome is unreachable. -/
theorem C1_boolean_rule (L : Libs) (cfg : Config) (t : String)
    (fb : Option ByteSeq) (fn : Option String) (pg : Page)
    (h1 : rule1Of L cfg (pyLower (pyStrip t)) (fnameOf fn) fb pg = none)
    (h2 : rule2Of (pyLower (pyStrip t)) = none)
    (h3 : rule3Cond (pyLower (pyStrip t)) = true) :
    heuristic_solve L cfg t fb fn pg = AnswerValue.bool true := by
  have htrue : containsStr (pyLower (pyStrip t)) "true" = true := by
    unfold rule3Cond at h3
    rcases (Bool.or_eq_true _ _).mp h3 with h | h
    · exact hasSub_trans (by decide) h
    · exact hasSub_trans (by decide) h
  have hval : rule3Val (pyLower (pyStrip t)) = true := by
    unfold rule3Val
    rw [htrue]
    rfl
  simp only [heuristic_solve, h1, h2, h3, hval, if_true]

/-- C1, witness: the `"yes this works"` half of the claim, through the
amended theorem. -/
theorem C1_witness :
    heuristic_solve L0 cfg0 "true or false, yes this works" none none page0 =
      AnswerValue.bool true :=
  C1_boolean_rule L0 cfg0 "true or false, yes this works" none none page0
    (by decide) (by decide) (by decide)

/-! ## Claim C4: totality of the solver -/

/-- C4: `solve` is total — it returns the first rule's result when one
fires and otherwise the truncated-problem-text fallback; and every
exception escaping a file-processing branch is converted to no-result by
the router rather than propagating. -/
theorem C4_total_with_fallback :
    (∀ (L : Libs) (cfg : Config) (t : String) (fb : Option ByteSeq)
        (fn : Option String) (pg : Page),
       heuristic_solve L cfg t fb fn pg =
         (rulesChain L cfg t fb fn pg).getD
           (AnswerValue.obj "problem_text" (pyTake t 200))) ∧
    (∀ (L : Libs) (cfg : Config) (b : ByteSeq) (f : String),
       dispatch L cfg b f = .error () → attemptProcess L cfg b f = none) := by
  constructor
  · intro L cfg t fb fn pg
    simp only [heuristic_solve, rulesChain]
    cases h1 : rule1Of L cfg (pyLower (pyStrip t)) (fnameOf fn) fb pg with
    | some v => simp [Option.orElse]
    | none =>
      cases h2 : rule2Of (pyLower (pyStrip t)) with
      | some q => simp [Option.orElse]
      | none =>
        by_cases h3 : rule3Cond (pyLower (pyStrip t)) = true
        · simp [h3, Option.orElse]
        · rw [Bool.not_eq_true] at h3
          cases h4 : rule4Of L cfg (fnameOf fn) fb with
          | some v => simp [h3, Option.orElse]
          | none => simp [h3, Option.orElse]
  · intro L cfg b f h
    rw [attemptProcess_eq, h]

/-- C4, witness: a CSV whose read raises is converted to no-result. -/
theorem C4_witness : attemptProcess Lerr cfg0 [] "x.csv" = none :=
  C4_total_with_fallback.2 Lerr cfg0 [] "x.csv" (by rfl)

/-! ## Claim C8: the final fallback -/

/-- C8: when no heuristic pattern matches and no file blob is present,
`solve` returns the structured object holding exactly the first 200
characters of the problem text. -/
theorem C8_fallback_truncation (L : Libs) (cfg : Config) (t : String) (pg : Page)
    (h1 : rule1Cond (pyLower (pyStrip t)) = false)
    (h2 : findArith (pyLower (pyStrip t)) = none)
    (h3 : rule3Cond (pyLower (pyStrip t)) = false) :
    heuristic_solve L cfg t none none pg =
      AnswerValue.obj "problem_text" (pyTake t 200) := by
  simp [heuristic_solve, rule1Of, rule2Of, rule4Of, h1, h2, h3]

/-- C8, witness. -/
theorem C8_witness :
    heuristic_solve L0 cfg0 "hello world" none none page0 =
      AnswerValue.obj "problem_text" (pyTake "hello world" 200) :=
  C8_fallback_truncation L0 cfg0 "hello world" page0 (by decide) (by decide) (by decide)

/-! ## Claim C9: idempotence of the router -/

/-- C9: running the router twice on the identical blob (same bytes, same
filename hint) produces the identical answer — the temp-file store left
by the first call does not influence the second. -/
theorem C9_idempotent (L : Libs) (cfg : Config) (w : World) (b : ByteSeq) (f : String) :
    (attemptProcessSt L cfg (attemptProcessSt L cfg w b f).1 b f).2 =
      (attemptProcessSt L cfg w b f).2 := by
  rw [attemptProcessSt_snd, attemptProcessSt_snd]

/-! ## Claim C10: the page is consulted only by rule 1 -/

/-- C10: when the lowered text does not contain all three of `"sum of"`,
`"value"`, `"page 2"`, the answer depends only on the text, bytes and
filename hint — any two page states give the same result. -/
theorem C10_page_independent (L : Libs) (cfg : Config) (t : String)
    (fb : Option ByteSeq) (fn : Option String) (pg1 pg2 : Page)
    (h : rule1Cond (pyLower (pyStrip t)) = false) :
    heuristic_solve L cfg t fb fn pg1 = heuristic_solve L cfg t fb fn pg2 := by
  have h1 : ∀ pg, rule1Of L cfg (pyLower (pyStrip t)) (fnameOf fn) fb pg = none := by
    intro pg
    simp [rule1Of, h]
  simp only [heuristic_solve, h1]

/-- C10, witness: a page with a downloadable CSV and one without. -/
theorem C10_witness :
    heuristic_solve L0 cfg0 "hi" none none page0 =
      heuristic_solve L0 cfg0 "hi" none none pageB :=
  C10_page_independent L0 cfg0 "hi" none none page0 pageB (by decide)

/-! ## Claim C5: the arithmetic rule's character guard -/

/-- C5, counterexample.  The claim says rule 2 matches only expressions
made of digits, whitespace and `+ - * /`.  The expression `"1.5"`
contains `'.'`, which is outside that set, yet the rule fires and
returns `1.5` instead of producing no result. -/
theorem C5_counterexample :
    heuristic_solve L0 cfg0 "what is 1.5?" none none page0 = AnswerValue.num (3 / 2) ∧
    claimedArithChar '.' = false := by
  with_unfolding_all decide

/-- C5 (amended): the permitted set additionally contains `'.'` — every
expression the rule captures consists only of digits, whitespace,
`'.'` and the four operators; any other character (e.g. a letter) in an
arithmetic-looking text prevents the capture, so the rule yields no
result and control falls through (here to the final fallback), with no
error propagated. -/
theorem C5_charset :
    (∀ s e : String, findArith s = some e →
       e.data ≠ [] ∧ e.data.all allowedArithChar = true) ∧
    heuristic_solve L0 cfg0 "what is 2+x?" none none page0 =
      AnswerValue.obj "problem_text" (pyTake "what is 2+x?" 200) := by
  constructor
  · intro s e h
    exact findArith_chars h
  · decide

/-- C5, witness for the captured-charset half. -/
theorem C5_witness :
    ("2+3" : String).data ≠ [] ∧ ("2+3" : String).data.all allowedArithChar = true :=
  C5_charset.1 "what is 2+3?" "2+3" (by decide)

/-! ## Claim C6: the arithmetic rule's value -/

/-- C6: when rule 1 yields nothing and the arithmetic pattern captures an
expression whose evaluation succeeds, `solve` returns that numeric value
(standard operator precedence); in particular `"what is 2+3*4?"` yields
`14`. -/
theorem C6_arithmetic :
    (∀ (L : Libs) (cfg : Config) (t : String) (fb : Option ByteSeq)
        (fn : Option String) (pg : Page) (e : String) (q : ℚ),
       rule1Of L cfg (pyLower (pyStrip t)) (fnameOf fn) fb pg = none →
       findArith (pyLower (pyStrip t)) = some e →
       pyEval e = some q →
       heuristic_solve L cfg t fb fn pg = AnswerValue.num q) ∧
    heuristic_solve L0 cfg0 "what is 2+3*4?" none none page0 = AnswerValue.num 14 := by
  constructor
  · intro L cfg t fb fn pg e q h1 h2 h3
    have hc := findArith_chars h2
    have hr2 : rule2Of (pyLower (pyStrip t)) = some q := by
      unfold rule2Of
      rw [h2]
      have hguard : (!e.data.isEmpty && e.data.all allowedArithChar) = true := by
        have hne : e.data.isEmpty = false := by
          cases hd : e.data with
          | nil => exact absurd hd hc.1
          | cons a l => rfl
        rw [hne, hc.2]
        rfl
      show (if (!e.data.isEmpty && e.data.all allowedArithChar) = true then pyEval e
            else none) = some q
      rw [if_pos hguard]
      exact h3
    simp only [heuristic_solve, h1, hr2]
  · with_unfolding_all decide

/-- C6, witness for the general half. -/
theorem C6_witness :
    heuristic_solve L0 cfg0 "what is 10-2?" none none page0 = AnswerValue.num 8 :=
  C6_arithmetic.1 L0 cfg0 "what is 10-2?" none none page0 "10-2" 8
    (by decide) (by decide) (by with_unfolding_all decide)

/-! ## Claim C7: single-page PDFs -/

/-- C7: a PDF blob with only one page yields no result from the router
(page index 1 does not exist), with the pdfplumber failure modes caught
rather than raised. -/
theorem C7_single_page_pdf (L : Libs) (cfg : Config) (b : ByteSeq) (fn : String)
    (pages : List PdfPage)
    (hocr : ocrCond cfg (pyLower fn) (L.sniff b) = false)
    (hpdf : pdfCond (L.sniff b) (pyLower fn) = true)
    (hcsv : csvCond (L.sniff b) (pyLower fn) = false)
    (hxl : excelCond (L.sniff b) (pyLower fn) = false)
    (hopen : L.pdfOpen b = .ok pages)
    (hone : pages.length = 1) :
    attemptProcess L cfg b fn = none := by
  rw [attemptProcess_eq, dispatch_to_pdf L cfg b fn hocr hpdf hcsv hxl, hopen]
  show pdfStep pages = none
  unfold pdfStep
  rw [hone]
  rfl

/-- C7, witness: a one-page PDF that even carries a `Value` table. -/
theorem C7_witness : attemptProcess Lp1 cfg0 [0] "f.pdf" = none :=
  C7_single_page_pdf Lp1 cfg0 [0] "f.pdf" [[[["Value"], ["3"]]]]
    (by decide) (by decide) (by decide) (by decide) rfl rfl

/-! ## Claim C2: the PDF extraction policy -/

/-- C2, counterexample.  The claim asserts the CSV column policy for PDF
tables, including the fallback to the first numeric column.  For a
two-page PDF whose page-index-1 table has header `amount` over the
numeric cell `5`, that policy yields `5`, but the router yields no
result: the PDF branch has no numeric-column fallback. -/
theorem C2_counterexample :
    attemptProcess L2n cfg0 [0] "f.pdf" = none ∧
    claimedPdfPolicy ["amount"] [["5"]] = some 5 := by
  with_unfolding_all decide

/-- C2 (amended): the router inspects page index 1 of a PDF with at least
two pages, reads the first table there with its first row as header, and
sums a case-insensitive `value` column after coercing each cell
(non-numeric to null); when no `value` column exists the PDF branch
produces nothing — there is no first-numeric-column fallback, so with no
other route open the result is Absent. -/
theorem C2_pdf_policy (L : Libs) (cfg : Config) (b : ByteSeq) (fn : String)
    (pages : List PdfPage) (hdr : Row) (rows : List Row) (ts : List Table) (i : Nat)
    (hocr : ocrCond cfg (pyLower fn) (L.sniff b) = false)
    (hpdf : pdfCond (L.sniff b) (pyLower fn) = true)
    (hcsv : csvCond (L.sniff b) (pyLower fn) = false)
    (hxl : excelCond (L.sniff b) (pyLower fn) = false)
    (hopen : L.pdfOpen b = .ok pages)
    (hlen : 2 ≤ pages.length)
    (hpage : pages.getD 1 [] = (hdr :: rows) :: ts)
    (hshape : rows.all (fun r => r.length == hdr.length) = true) :
    (hdr.findIdx? (fun h => pyLower h == "value") = some i →
       attemptProcess L cfg b fn =
         some (.num ((rows.filterMap (fun r => parseNum (r.getD i ""))).sum))) ∧
    (hdr.findIdx? (fun h => pyLower h == "value") = none →
       attemptProcess L cfg b fn = none) := by
  have hbase : attemptProcess L cfg b fn = pdfStep pages := by
    rw [attemptProcess_eq, dispatch_to_pdf L cfg b fn hocr hpdf hcsv hxl, hopen]
  have hstep : pdfStep pages =
      (match hdr.findIdx? (fun h => pyLower h == "value") with
       | some j => some (.num ((rows.filterMap (fun r => parseNum (r.getD j ""))).sum))
       | none => none) := by
    unfold pdfStep
    rw [if_pos hlen]
    simp only [hpage, hshape, if_true]
  constructor
  · intro hidx
    rw [hbase, hstep, hidx]
  · intro hidx
    rw [hbase, hstep, hidx]

/-- C2, witness: a two-page PDF whose page-index-1 table has a `Value`
column summing to 7. -/
theorem C2_witness : attemptProcess L2v cfg0 [0] "f.pdf" = some (AnswerValue.num 7) := by
  have h := (C2_pdf_policy L2v cfg0 [0] "f.pdf"
      [[], [[["Value", "x"], ["3", "9"], ["4", "8"]]]]
      ["Value", "x"] [["3", "9"], ["4", "8"]] [] 0
      (by decide) (by decide) (by decide) (by decide) rfl (by decide) rfl
      (by decide)).1 (by decide)
  exact h.trans (by with_unfolding_all decide)

/-! ## Claim C3: the CSV extraction policy -/

/-- C3, counterexample.  The claim asserts that non-numeric cells of a
`value` column are coerced to null and excluded from the sum: for cells
`1` and `abc` that policy gives `1`.  The code performs no coercion —
`float(df[col].sum())` raises on the object-typed column and the router
returns no result. -/
theorem C3_counterexample :
    attemptProcess L3b cfg0 [0] "d.csv" = none ∧
    (["1", "abc"].filterMap parseNum).sum = 1 := by
  with_unfolding_all decide

/-- C3 (amended): for a CSV parsed with a header, a case-insensitive
`value` column is summed directly when it is numeric-typed (blank cells
are null and skipped); if it is object-typed (some non-blank cell does
not parse) and its concatenation does not parse as a number, the whole
extraction aborts to Absent — cells are not individually coerced.
Without a `value` column the first numeric-typed column is summed, and
with none the result is Absent. -/
theorem C3_csv_policy (L : Libs) (cfg : Config) (b : ByteSeq) (fn : String) (df : Df)
    (hocr : ocrCond cfg (pyLower fn) (L.sniff b) = false)
    (hpdf : pdfCond (L.sniff b) (pyLower fn) = false)
    (hcsv : csvCond (L.sniff b) (pyLower fn) = true)
    (hxl : excelCond (L.sniff b) (pyLower fn) = false)
    (hread : L.readCsv b = .ok df) :
    (∀ i, df.cols.findIdx? (fun c => pyLower c.1 == "value") = some i →
       (numericCol (df.cols.getD i ("", [])).2 = true →
          attemptProcess L cfg b fn =
            some (.num (sumNumeric (df.cols.getD i ("", [])).2))) ∧
       (numericCol (df.cols.getD i ("", [])).2 = false →
          (df.cols.getD i ("", [])).2.any (fun s => s == "") = false →
          parseNum (joinCells (df.cols.getD i ("", [])).2) = none →
          attemptProcess L cfg b fn = none)) ∧
    (df.cols.findIdx? (fun c => pyLower c.1 == "value") = none →
       (∀ c, df.cols.find? (fun c => numericCol c.2) = some c →
          attemptProcess L cfg b fn = some (.num (sumNumeric c.2))) ∧
       (df.cols.find? (fun c => numericCol c.2) = none →
          attemptProcess L cfg b fn = none)) := by
  have hbase : attemptProcess L cfg b fn =
      (match tabularAnswer df with
       | .ok v => v
       | .error _ => none) := by
    rw [attemptProcess_eq, dispatch_to_csv L cfg b fn hocr hpdf hcsv hxl, hread]
  constructor
  · intro i hidx
    constructor
    · intro hnum
      have hf : floatSumSeries (df.cols.getD i ("", [])).2 =
          some (sumNumeric (df.cols.getD i ("", [])).2) := by
        unfold floatSumSeries
        rw [if_pos hnum]
      rw [hbase]
      simp only [tabularAnswer, hidx, hf]
    · intro hnn hnb hnp
      have hf : floatSumSeries (df.cols.getD i ("", [])).2 = none := by
        unfold floatSumSeries
        rw [if_neg (by rw [hnn]; exact Bool.false_ne_true),
            if_neg (by rw [hnb]; exact Bool.false_ne_true), hnp]
      rw [hbase]
      simp only [tabularAnswer, hidx, hf]
  · intro hidx
    constructor
    · intro c hc
      rw [hbase]
      simp only [tabularAnswer, hidx, hc]
    · intro hc
      rw [hbase]
      simp only [tabularAnswer, hidx, hc]

/-- C3, witness: the spec's example — header `value,other`, rows
`[1,9]`, `[2,8]` — sums the `value` column to 3, ignoring `other`. -/
theorem C3_witness : attemptProcess L3a cfg0 [0] "d.csv" = some (AnswerValue.num 3) := by
  have h := ((C3_csv_policy L3a cfg0 [0] "d.csv"
      ⟨[("value", ["1", "2"]), ("other", ["9", "8"])]⟩
      (by decide) (by decide) (by decide) (by decide) rfl).1 0 (by decide)).1 (by decide)
  exact h.trans (by with_unfolding_all decide)

end Quiz




